import Mathlib

/-!
Verification of the scoring, feedback-synthesis and question-generation core
of an interview-practice service.  The Python services
(`services/answer_analyzer.py`, `services/feedback_generator.py`,
`services/question_generator.py`) are shallowly embedded: strings are
`List Char` with Python string semantics re-implemented, numeric scores are
exact rationals (`ℚ`), and the two external NLP capabilities used by the
analyzer (the `textstat` readability formula and the NLTK sentiment
analyzer's compound polarity) are parameters of the embedding, since their
code is not part of the repository.  Randomized selection (`random.sample`,
`random.choice`, `random.shuffle`) is modelled by function parameters
constrained, in the theorems, by exactly the guarantees Python's
`random` module gives.
-/

namespace AIInterviewBot

/-! ### Python string semantics on `List Char` -/

/-- Strings are lists of characters; all inputs of interest are ASCII. -/
abbrev Str := List Char

/-- Lower-case one ASCII character (Python `str.lower` on the ASCII range). -/
def toLowerChar (c : Char) : Char :=
  if 65 ≤ c.toNat ∧ c.toNat ≤ 90 then Char.ofNat (c.toNat + 32) else c

/-- Python `s.lower()` (ASCII; every lexicon entry of the source is ASCII). -/
def lowerStr (s : Str) : Str := s.map toLowerChar

/-- The whitespace characters of Python `str.split()` / `str.strip()`. -/
def isSpaceChar (c : Char) : Bool :=
  c == ' ' || c == '\t' || c == '\n' || c == '\r' || c == '\x0b' || c == '\x0c'

/-- Python substring test `needle in hay`. -/
def containsSub (needle : Str) : Str → Bool
  | [] => needle.isEmpty
  | c :: rest => needle.isPrefixOf (c :: rest) || containsSub needle rest

/-- Fuel-driven worker for `countSub`; the fuel starts at the haystack length,
which suffices because every step consumes at least one character of a
nonempty haystack. -/
def countSubAux (needle : Str) : Nat → Str → Nat
  | 0, _ => 0
  | _ + 1, [] => 0
  | fuel + 1, c :: rest =>
    if needle.isPrefixOf (c :: rest) then
      1 + countSubAux needle fuel ((c :: rest).drop needle.length)
    else
      countSubAux needle fuel rest

/-- Python `hay.count(needle)`: non-overlapping occurrences, scanning left to
right (the source only counts nonempty needles). -/
def countSub (needle hay : Str) : Nat := countSubAux needle hay.length hay

/-- Split at every separator character, keeping empty pieces — Python
`s.split(sep)` with an explicit one-character separator. -/
def splitOnPred (p : Char → Bool) : Str → List Str
  | [] => [[]]
  | c :: rest =>
    match splitOnPred p rest with
    | [] => [[]]
    | h :: t => if p c then [] :: h :: t else (c :: h) :: t

/-- Python `s.split('.')`. -/
def splitDot (s : Str) : List Str := splitOnPred (· == '.') s

/-- Python `s.split()` with no argument: split on whitespace runs and drop
empty pieces. -/
def pySplit (s : Str) : List Str :=
  (splitOnPred isSpaceChar s).filter (fun w => !w.isEmpty)

/-- Python `s.strip()`. -/
def stripWs (s : Str) : Str :=
  ((s.dropWhile isSpaceChar).reverse.dropWhile isSpaceChar).reverse

/-- A `\w` character of the source's `re.findall(r'\b\w+\b', s)` (ASCII). -/
def isWordChar (c : Char) : Bool := c.isAlpha || c.isDigit || c == '_'

/-- The matches of `\b\w+\b`: the maximal runs of word characters. -/
def wordTokens (s : Str) : List Str :=
  (splitOnPred (fun c => !isWordChar c) s).filter (fun w => !w.isEmpty)

/-- Distinct elements of a list (models Python `set(...)` cardinality and
membership; keeps the last copy of each element). -/
def dedupStr : List Str → List Str
  | [] => []
  | x :: xs => if xs.contains x then dedupStr xs else x :: dedupStr xs

/-- The source's `sum(1 for k in kws if k in s)`: how many of the phrases
occur in `s`. -/
def countPresent (kws : List Str) (s : Str) : Nat :=
  (kws.filter (fun k => containsSub k s)).length

/-- Python `any(k in s for k in kws)`. -/
def anyPresent (kws : List Str) (s : Str) : Bool :=
  kws.any (fun k => containsSub k s)

/-- Python `s[-n:]`. -/
def lastN (n : Nat) (s : Str) : Str := s.drop (s.length - n)

/-! ### Lexicons of `AnswerAnalyzer.__init__` -/

/-- `confidence_keywords['high']`. -/
def confidenceHigh : List Str :=
  ["confident", "certain", "definitely", "absolutely", "sure", "positive"].map String.data

/-- `confidence_keywords['low']`. -/
def confidenceLow : List Str :=
  ["maybe", "perhaps", "might", "possibly", "unsure", "think", "guess"].map String.data

/-- `technical_keywords` (insertion order of the Python dict). -/
def technicalKeywords : List (String × List Str) :=
  [("architecture", ["design", "architecture", "pattern", "structure", "framework"].map String.data),
   ("performance", ["optimize", "performance", "speed", "efficient", "scalable"].map String.data),
   ("security", ["security", "authentication", "authorization", "encryption", "vulnerability"].map String.data),
   ("testing", ["test", "testing", "unit test", "integration", "debugging"].map String.data),
   ("collaboration", ["team", "collaborate", "communication", "meeting", "review"].map String.data)]

/-! ### `_analyze_content` -/

/-- Result dictionary of `_analyze_content`. -/
structure ContentAnalysis where
  word_count : Nat
  sentence_count : Nat
  relevance_score : ℚ
  depth_score : ℚ
  has_examples : Bool

/-- `depth_indicators` of `_analyze_content`. -/
def depthIndicators : List Str :=
  ["because", "therefore", "however", "additionally", "furthermore", "for example", "such as"].map String.data

/-- The example-signal phrases of `_analyze_content`. -/
def exampleSignals : List Str :=
  ["for example", "such as", "like when", "instance"].map String.data

/-- `_analyze_content(answer, question, category)` (the `category` argument is
unused by the source's body as well). -/
def analyzeContent (answer question category : Str) : ContentAnalysis :=
  let word_count := (pySplit answer).length
  let sentence_count := ((splitDot answer).filter (fun s => !(stripWs s).isEmpty)).length
  let question_keywords := dedupStr (wordTokens (lowerStr question))
  let answer_keywords := wordTokens (lowerStr answer)
  let inter := (question_keywords.filter (fun w => answer_keywords.contains w)).length
  let relevance_score : ℚ := (inter : ℚ) / (max question_keywords.length 1 : ℕ) * 100
  let depth_score : ℚ := (countPresent depthIndicators (lowerStr answer) : ℚ) * 10
  { word_count := word_count
    sentence_count := sentence_count
    relevance_score := min 100 relevance_score
    depth_score := min 100 depth_score
    has_examples := anyPresent exampleSignals (lowerStr answer) }

/-! ### `_analyze_technical_content` -/

/-- Result of `_analyze_technical_content`. -/
structure TechnicalAnalysis where
  technical_categories : List (String × ℚ)
  role_technical_score : ℚ
  has_code_example : Bool
  overall_technical_score : ℚ

/-- `role_terms` table of `_get_role_technical_terms`. -/
def roleTechnicalTermTable : List (Str × List Str) :=
  [("software engineer".data, ["algorithm", "data structure", "api", "framework", "library", "debugging"].map String.data),
   ("frontend developer".data, ["responsive", "dom", "css", "javascript", "react", "vue", "angular"].map String.data),
   ("backend developer".data, ["database", "server", "api", "microservices", "authentication", "caching"].map String.data),
   ("data scientist".data, ["model", "dataset", "analysis", "statistics", "machine learning", "visualization"].map String.data),
   ("devops engineer".data, ["deployment", "infrastructure", "monitoring", "automation", "pipeline", "container"].map String.data)]

/-- Fallback list of `_get_role_technical_terms`. -/
def defaultRoleTerms : List Str :=
  ["technology", "system", "solution", "implementation", "development"].map String.data

/-- `_get_role_technical_terms(job_role)`: first table row whose role name is
a substring of the lower-cased job role, else the fallback list. -/
def getRoleTechnicalTerms (job_role : Str) : List Str :=
  match roleTechnicalTermTable.find? (fun p => containsSub p.1 (lowerStr job_role)) with
  | some p => p.2
  | none => defaultRoleTerms

/-- The implementation-vocabulary indicators of `_analyze_technical_content`. -/
def codeExampleIndicators : List Str :=
  ["function", "class", "method", "algorithm", "data structure", "database"].map String.data

/-- `_analyze_technical_content(answer, job_role)`. -/
def analyzeTechnicalContent (answer job_role : Str) : TechnicalAnalysis :=
  let al := lowerStr answer
  let technical_scores :=
    technicalKeywords.map (fun p => (p.1, min 100 ((countPresent p.2 al : ℚ) * 20)))
  let role_term_count := countPresent (getRoleTechnicalTerms job_role) al
  { technical_categories := technical_scores
    role_technical_score := min 100 ((role_term_count : ℚ) * 15)
    has_code_example := anyPresent codeExampleIndicators al
    overall_technical_score :=
      (technical_scores.map Prod.snd).sum / (max technical_scores.length 1 : ℕ) }

/-! ### `_analyze_structure` -/

/-- The boolean evidence computed by `_analyze_structure`; the four STAR
components are only tested when the category is `'behavioral'` (otherwise
`star_components` stays empty in the source and no points accrue). -/
structure StructureFeatures where
  situation : Bool
  task : Bool
  action : Bool
  result : Bool
  has_logical_flow : Bool
  has_introduction : Bool
  has_conclusion : Bool

/-- `star_indicators['situation']`. -/
def situationIndicators : List Str :=
  ["situation", "context", "background", "when", "where"].map String.data

/-- `star_indicators['task']`. -/
def taskIndicators : List Str :=
  ["task", "responsibility", "goal", "objective", "needed to"].map String.data

/-- `star_indicators['action']`. -/
def actionIndicators : List Str :=
  ["action", "did", "implemented", "developed", "created", "decided"].map String.data

/-- `star_indicators['result']`. -/
def resultIndicators : List Str :=
  ["result", "outcome", "achieved", "improved", "increased", "successful"].map String.data

/-- `flow_indicators` of `_analyze_structure`. -/
def flowIndicators : List Str :=
  ["first", "then", "next", "finally", "in conclusion", "therefore"].map String.data

/-- The conclusion phrases of `_analyze_structure`. -/
def conclusionPhrases : List Str :=
  ["in conclusion", "to summarize", "overall", "in summary"].map String.data

/-- Evidence half of `_analyze_structure`. -/
def structureFeatures (answer category : Str) : StructureFeatures :=
  let al := lowerStr answer
  let beh := category == "behavioral".data
  { situation := beh && anyPresent situationIndicators al
    task := beh && anyPresent taskIndicators al
    action := beh && anyPresent actionIndicators al
    result := beh && anyPresent resultIndicators al
    has_logical_flow := decide (0 < countPresent flowIndicators al)
    has_introduction :=
      if containsSub ['.'] answer then decide (20 < ((splitDot answer).headI).length) else false
    has_conclusion := anyPresent conclusionPhrases (lastN 100 al) }

/-- Result of `_analyze_structure`. -/
structure StructureAnalysis where
  star_score : ℚ
  has_logical_flow : Bool
  has_introduction : Bool
  has_conclusion : Bool
  structure_score : ℚ

/-- Scoring half of `_analyze_structure`: 25 points per STAR component,
plus the flat 25/15/10 bonuses, with no clamp. -/
def structureScoreOf (f : StructureFeatures) : StructureAnalysis :=
  let star_score : ℚ := (if f.situation then 25 else 0) + (if f.task then 25 else 0) +
    (if f.action then 25 else 0) + (if f.result then 25 else 0)
  { star_score := star_score
    has_logical_flow := f.has_logical_flow
    has_introduction := f.has_introduction
    has_conclusion := f.has_conclusion
    structure_score := star_score + (if f.has_logical_flow then 25 else 0) +
      (if f.has_introduction then 15 else 0) + (if f.has_conclusion then 10 else 0) }

/-- `_analyze_structure(answer, category)`. -/
def analyzeStructure (answer category : Str) : StructureAnalysis :=
  structureScoreOf (structureFeatures answer category)

/-! ### `_analyze_confidence` -/

/-- `hedge_words` of `_analyze_confidence`. -/
def hedgeWords : List Str :=
  ["kind of", "sort of", "i think", "i believe", "probably", "maybe"].map String.data

/-- Result of `_analyze_confidence`. -/
structure ConfidenceAnalysis where
  confidence_score : ℚ
  high_confidence_indicators : Nat
  low_confidence_indicators : Nat
  hedge_word_count : Nat
  sentiment_score : ℚ

/-- The pre-clamp confidence expression of `_analyze_confidence`:
`(high * 15) - (low * 10) - (hedge * 5) + 50`. -/
def confidenceRaw (answer : Str) : ℚ :=
  let al := lowerStr answer
  (countPresent confidenceHigh al : ℚ) * 15 - (countPresent confidenceLow al : ℚ) * 10 -
    (countPresent hedgeWords al : ℚ) * 5 + 50

/-- `_analyze_confidence(answer)`; `compound` models the optional NLTK
sentiment analyzer's compound polarity (`none` is the analyzer-unavailable /
exception fallback of the source, which keeps the neutral 50). -/
def analyzeConfidence (compound : Option (Str → ℚ)) (answer : Str) : ConfidenceAnalysis :=
  let al := lowerStr answer
  { confidence_score := max 0 (min 100 (confidenceRaw answer))
    high_confidence_indicators := countPresent confidenceHigh al
    low_confidence_indicators := countPresent confidenceLow al
    hedge_word_count := countPresent hedgeWords al
    sentiment_score :=
      match compound with
      | some f => max 0 (min 100 ((f answer + 1) * 50))
      | none => 50 }

/-! ### `_analyze_completeness` -/

/-- Result of `_analyze_completeness`. -/
structure CompletenessAnalysis where
  word_count : Nat
  length_score : ℚ
  addresses_all_parts : Bool
  completeness_score : ℚ

/-- `expected_lengths.get(category, (100, 250))` of `_analyze_completeness`. -/
def expectedLengths (category : Str) : Nat × Nat :=
  if category = "technical".data then (100, 300)
  else if category = "behavioral".data then (150, 400)
  else if category = "situational".data then (100, 250)
  else if category = "general".data then (50, 200)
  else (100, 250)

/-- `_analyze_completeness(answer, question, category)`. -/
def analyzeCompleteness (answer question category : Str) : CompletenessAnalysis :=
  let word_count := (pySplit answer).length
  let mn := (expectedLengths category).1
  let mx := (expectedLengths category).2
  let length_score : ℚ :=
    if word_count < mn then ((word_count : ℚ) / mn) * 70
    else if mx < word_count then max 70 (100 - (((word_count : ℚ) - mx) / mx) * 30)
    else 100
  let question_parts := max 1 (countSub ['?'] question + countSub "and".data question + countSub "or".data question)
  let addresses_all_parts := decide (question_parts ≤ (splitDot answer).length)
  { word_count := word_count
    length_score := length_score
    addresses_all_parts := addresses_all_parts
    completeness_score := (length_score + (if addresses_all_parts then 20 else 0)) / 1.2 }

/-! ### `_analyze_linguistics`, `_calculate_scores` and `analyze` -/

/-- Readability from `_analyze_linguistics`; `fre` models the external
`textstat.flesch_reading_ease` (its exception fallback is `fun _ => 50`).
The other fields of the source's linguistic dictionary (grade level, POS
tallies, average sentence length, vocabulary diversity) are never read by
`_calculate_scores` or by the feedback generator and are omitted. -/
structure LinguisticAnalysis where
  readability_score : ℚ

/-- The readability part of `_analyze_linguistics(answer)`. -/
def analyzeLinguistics (fre : Str → ℚ) (answer : Str) : LinguisticAnalysis :=
  { readability_score := max 0 (min 100 (fre answer)) }

/-- The `scores` dictionary produced by `_calculate_scores`. -/
structure Scores where
  overall_score : ℚ
  content_score : ℚ
  technical_score : ℚ
  structure_score : ℚ
  confidence_score : ℚ
  completeness_score : ℚ
  communication_score : ℚ

/-- The analysis dictionary assembled by `analyze` before `'scores'` is added. -/
structure Analysis where
  content_analysis : ContentAnalysis
  linguistic_analysis : LinguisticAnalysis
  technical_analysis : TechnicalAnalysis
  structure_analysis : StructureAnalysis
  confidence_analysis : ConfidenceAnalysis
  completeness_analysis : CompletenessAnalysis

/-- `_calculate_scores(analysis)` (the local `weights` dict of the source is
inlined at its use sites: content 0.25, technical 0.25, structure 0.20,
confidence 0.15, completeness 0.15). -/
def calculateScores (analysis : Analysis) : Scores :=
  let content_score := (analysis.content_analysis.relevance_score +
    analysis.content_analysis.depth_score) / 2
  let technical_score := analysis.technical_analysis.overall_technical_score
  let structure_score := analysis.structure_analysis.structure_score
  let confidence_score := analysis.confidence_analysis.confidence_score
  let completeness_score := analysis.completeness_analysis.completeness_score
  let overall_score := content_score * 0.25 + technical_score * 0.25 +
    structure_score * 0.20 + confidence_score * 0.15 + completeness_score * 0.15
  { overall_score := min 100 (max 0 overall_score)
    content_score := content_score
    technical_score := technical_score
    structure_score := structure_score
    confidence_score := confidence_score
    completeness_score := completeness_score
    communication_score := (analysis.linguistic_analysis.readability_score + confidence_score) / 2 }

/-- The value returned by `analyze`: the analysis dictionary together with
its `'scores'` entry. -/
structure AnalysisResult where
  analysis : Analysis
  scores : Scores

/-- `_generate_insufficient_answer_analysis()`.  Record fields that the
source's short dictionary leaves out entirely (they are never read on this
path) are filled with zero/false. -/
def insufficientAnswerAnalysis : AnalysisResult :=
  { analysis :=
    { content_analysis :=
      { word_count := 0, sentence_count := 0, relevance_score := 0, depth_score := 0,
        has_examples := false }
      linguistic_analysis := { readability_score := 0 }
      technical_analysis :=
      { technical_categories := [], role_technical_score := 0, has_code_example := false,
        overall_technical_score := 0 }
      structure_analysis :=
      { star_score := 0, has_logical_flow := false, has_introduction := false,
        has_conclusion := false, structure_score := 0 }
      confidence_analysis :=
      { confidence_score := 0, high_confidence_indicators := 0, low_confidence_indicators := 0,
        hedge_word_count := 0, sentiment_score := 0 }
      completeness_analysis :=
      { word_count := 0, length_score := 0, addresses_all_parts := false,
        completeness_score := 0 } }
    scores :=
    { overall_score := 0, content_score := 0, technical_score := 0, structure_score := 0,
      confidence_score := 0, completeness_score := 0, communication_score := 0 } }

/-- `analyze(question, answer, category, job_role)`: the guard
`not answer or len(answer.strip()) < 10` short-circuits to the insufficient
analysis, otherwise all six sub-analyses run and `_calculate_scores`
aggregates them. -/
def analyze (fre : Str → ℚ) (compound : Option (Str → ℚ))
    (question answer category job_role : Str) : AnalysisResult :=
  if answer = [] ∨ (stripWs answer).length < 10 then insufficientAnswerAnalysis
  else
    let analysis : Analysis :=
      { content_analysis := analyzeContent answer question category
        linguistic_analysis := analyzeLinguistics fre answer
        technical_analysis := analyzeTechnicalContent answer job_role
        structure_analysis := analyzeStructure answer category
        confidence_analysis := analyzeConfidence compound answer
        completeness_analysis := analyzeCompleteness answer question category }
    { analysis := analysis, scores := calculateScores analysis }

/-! ### `QuestionGenerator` (services/question_generator.py)

Randomness is a parameter: `sampleStr`/`sampleQ` stand for `random.sample`
on template/question pools, `choiceT` for the successive `random.choice`
calls (indexed by loop iteration), `shuffleQ` for `random.shuffle`.  The
theorems constrain them by exactly the guarantees Python documents
(`sample` returns `k` distinct-position elements when `k ≤ len(pool)`,
`shuffle` permutes). -/

/-- A generated question record; fields that only some of the generator
branches put into their dictionaries are `Option`s defaulting to `none`. -/
structure Question where
  question : Str
  category : Str
  difficulty : Str
  skill : Option Str := none
  role : Option Str := none
  expectedAnswer : Option Str := none
deriving DecidableEq

/-- `question_templates` of `QuestionGenerator.__init__`, looked up by
category and internal difficulty level (every lookup the source performs
hits an existing key, so the fallback `[]` is never selected by `generate`). -/
def questionTemplates (category level : Str) : List Str :=
  if category = "technical".data then
    (if level = "easy".data then
      ["What is {skill} and how have you used it?",
       "Explain the basics of {skill}.",
       "What are the main features of {skill}?",
       "How would you describe {skill} to a beginner?",
       "What drew you to learning {skill}?"].map String.data
     else if level = "medium".data then
      ["Describe a project where you used {skill}. What challenges did you face?",
       "How would you optimize performance in a {skill} application?",
       "What are the best practices you follow when working with {skill}?",
       "Compare {skill} with similar technologies. What are the pros and cons?",
       "Walk me through how you would debug an issue in {skill}."].map String.data
     else if level = "hard".data then
      ["Design a scalable system using {skill}. What architecture would you choose?",
       "How would you handle concurrency issues in {skill}?",
       "Explain the internals of {skill}. How does it work under the hood?",
       "What are the security considerations when using {skill}?",
       "How would you migrate a large codebase from another technology to {skill}?"].map String.data
     else [])
  else if category = "behavioral".data then
    (if level = "easy".data then
      ["Tell me about yourself and your background.",
       "Why are you interested in this role?",
       "What are your greatest strengths?",
       "Where do you see yourself in 5 years?",
       "Why do you want to work for our company?"].map String.data
     else if level = "medium".data then
      ["Describe a time when you had to learn a new technology quickly.",
       "Tell me about a challenging project you worked on.",
       "How do you handle working under pressure?",
       "Describe a time when you had to work with a difficult team member.",
       "What's the most innovative solution you've implemented?"].map String.data
     else if level = "hard".data then
      ["Tell me about a time when you failed and how you handled it.",
       "Describe a situation where you had to make a decision with incomplete information.",
       "How would you handle a disagreement with your manager about technical direction?",
       "Tell me about a time when you had to convince others to adopt your approach.",
       "Describe the most complex problem you've solved and your approach."].map String.data
     else [])
  else if category = "situational".data then
    (if level = "easy".data then
      ["How would you approach learning a new programming language?",
       "What would you do if you encountered a bug you couldn't solve?",
       "How do you stay updated with new technologies?",
       "What's your process for code review?",
       "How do you prioritize tasks when everything seems urgent?"].map String.data
     else if level = "medium".data then
      ["Your team is behind schedule on a project. How would you help catch up?",
       "You discover a security vulnerability in production. What's your approach?",
       "How would you onboard a new team member?",
       "A client wants a feature that you think is technically unfeasible. How do you handle it?",
       "You disagree with a design decision made by a senior developer. What do you do?"].map String.data
     else if level = "hard".data then
      ["The system is down and customers are complaining. Walk me through your incident response.",
       "You need to choose between two architectural approaches with different trade-offs. How do you decide?",
       "Your team wants to adopt a new technology, but management is resistant. How do you proceed?",
       "You've inherited a legacy codebase with poor documentation. How do you approach modernizing it?",
       "A critical team member just quit before a major deadline. How do you manage the situation?"].map String.data
     else [])
  else if category = "general".data then
    (if level = "easy".data then
      ["What interests you most about software development?",
       "How do you approach problem-solving?",
       "What's your preferred development environment?",
       "How do you handle feedback on your code?",
       "What motivates you in your work?"].map String.data
     else if level = "medium".data then
      ["Describe your ideal work environment.",
       "How do you balance technical debt with new feature development?",
       "What's your approach to testing?",
       "How do you ensure code quality in your projects?",
       "What's the most important skill for a developer to have?"].map String.data
     else if level = "hard".data then
      ["How do you evaluate and choose between different technical solutions?",
       "What's your philosophy on software architecture?",
       "How do you measure the success of a software project?",
       "What role should developers play in product decisions?",
       "How do you balance innovation with stability in software development?"].map String.data
     else [])
  else []

/-- `role_specific_questions` of `QuestionGenerator.__init__` (role key,
then the per-category question lists in dict insertion order). -/
def roleSpecificQuestions : List (Str × List (Str × List Str)) :=
  [("software engineer".data,
    [("technical".data,
      ["Explain the difference between synchronous and asynchronous programming.",
       "How would you design a REST API for a social media platform?",
       "What are the SOLID principles and why are they important?",
       "Explain the concept of Big O notation with examples.",
       "How do you ensure your code is maintainable and scalable?"].map String.data),
     ("coding".data,
      ["Write a function to reverse a string without using built-in methods.",
       "Implement a binary search algorithm.",
       "How would you find the duplicate number in an array?",
       "Design a data structure for a LRU cache.",
       "Write code to detect if a linked list has a cycle."].map String.data)]),
   ("frontend developer".data,
    [("technical".data,
      ["Explain the difference between var, let, and const in JavaScript.",
       "How does the virtual DOM work in React?",
       "What are CSS Grid and Flexbox? When would you use each?",
       "Explain event bubbling and capturing in JavaScript.",
       "How do you optimize web application performance?"].map String.data)]),
   ("backend developer".data,
    [("technical".data,
      ["Explain the difference between SQL and NoSQL databases.",
       "How would you design a database schema for an e-commerce platform?",
       "What are microservices and their advantages?",
       "How do you handle authentication and authorization?",
       "Explain caching strategies and when to use them."].map String.data)]),
   ("data scientist".data,
    [("technical".data,
      ["Explain the difference between supervised and unsupervised learning.",
       "How would you handle missing data in a dataset?",
       "What is overfitting and how do you prevent it?",
       "Explain the bias-variance tradeoff.",
       "How do you evaluate the performance of a machine learning model?"].map String.data)])]

/-- Fuel-driven worker for `replaceSub` (same fuel argument as
`countSubAux`). -/
def replaceSubAux (needle repl : Str) : Nat → Str → Str
  | 0, s => s
  | _ + 1, [] => []
  | fuel + 1, c :: rest =>
    if needle.isPrefixOf (c :: rest) then
      repl ++ replaceSubAux needle repl fuel ((c :: rest).drop needle.length)
    else
      c :: replaceSubAux needle repl fuel rest

/-- Replace every occurrence of `needle` (Python
`template.format(skill=skill)` for templates whose only placeholder is
`{skill}`). -/
def replaceSub (needle repl s : Str) : Str := replaceSubAux needle repl s.length s

/-- The `difficulty_map.get(difficulty, 'medium')` of `generate`. -/
def difficultyLevel (difficulty : Str) : Str :=
  if difficulty = "beginner".data then "easy".data
  else if difficulty = "intermediate".data then "medium".data
  else if difficulty = "advanced".data then "hard".data
  else "medium".data

/-- The per-category quota computed by `_get_question_distribution`. -/
structure QuestionDistribution where
  technical : Nat
  behavioral : Nat
  situational : Nat
  general : Nat
deriving DecidableEq

/-- `_get_question_distribution(total_count)`.  The `> 5` branch computes
`int(total_count * f)` on floats; the embedding uses the exact value
`total_count * k / 10` (integer floor), which agrees with the float
computation at every input this development evaluates (in particular 10).
The `≤ 5` branch's general bucket is `max(0, ...)` over a possibly negative
integer, hence the excursion through `ℤ`. -/
def getQuestionDistribution (total_count : Nat) : QuestionDistribution :=
  if total_count ≤ 5 then
    { technical := max 1 (total_count / 2)
      behavioral := max 1 (total_count / 3)
      situational := max 1 (total_count / 4)
      general := (max 0 ((total_count : ℤ) - (total_count / 2 : Nat) - (total_count / 3 : Nat) - (total_count / 4 : Nat))).toNat }
  else
    { technical := max 2 (total_count * 4 / 10)
      behavioral := max 2 (total_count * 3 / 10)
      situational := max 1 (total_count * 2 / 10)
      general := max 1 (total_count * 1 / 10) }

/-- `_generate_technical_questions(skills, count, difficulty)`: sample
`min(len(skills), count)` skills, then fill a random template per skill
(the source's `enumerate` loop breaks at index `count`, i.e. `take count`). -/
def generateTechnicalQuestions (sampleStr : List Str → Nat → List Str)
    (choiceT : Nat → List Str → Str) (skills : List Str) (count : Nat)
    (difficulty : Str) : List Question :=
  let templates := questionTemplates "technical".data difficulty
  let selected_skills := sampleStr skills (min skills.length count)
  (selected_skills.take count).enum.map (fun p =>
    { question := replaceSub "{skill}".data p.2 (choiceT p.1 templates)
      category := "technical".data
      difficulty := difficulty
      skill := some p.2
      expectedAnswer := some ("Expected to demonstrate knowledge of ".data ++ p.2 ++
        " with practical examples.".data) })

/-- The `role_questions` pool built by `_generate_role_specific_questions`:
the first role key that is a substring of the lower-cased job role
contributes all its per-category questions (category `'coding'` is kept
as-is by the source's conditional). -/
def roleSpecificPool (job_role : Str) : List Question :=
  match roleSpecificQuestions.find? (fun p => containsSub p.1 (lowerStr job_role)) with
  | some p =>
    (p.2.map (fun cq => cq.2.map (fun q =>
      ({ question := q
         category := if cq.1 = "technical".data then "technical".data else cq.1
         difficulty := "medium".data
         role := some job_role } : Question)))).flatten
  | none => []

/-- `_generate_role_specific_questions(job_role, count)`: sample
`min(len(pool), count)` questions from the matching pool, or nothing when
no role key matches. -/
def generateRoleSpecificQuestions (sampleQ : List Question → Nat → List Question)
    (job_role : Str) (count : Nat) : List Question :=
  let role_questions := roleSpecificPool job_role
  if role_questions.isEmpty then []
  else sampleQ role_questions (min role_questions.length count)

/-- `_generate_behavioral_questions(count, difficulty)`. -/
def generateBehavioralQuestions (sampleStr : List Str → Nat → List Str)
    (count : Nat) (difficulty : Str) : List Question :=
  let templates := questionTemplates "behavioral".data difficulty
  (sampleStr templates (min templates.length count)).map (fun t =>
    { question := t
      category := "behavioral".data
      difficulty := difficulty
      expectedAnswer := some ("Expected to use STAR method (Situation, Task, Action, Result) to provide specific examples.").data })

/-- `_generate_situational_questions(count, difficulty)`. -/
def generateSituationalQuestions (sampleStr : List Str → Nat → List Str)
    (count : Nat) (difficulty : Str) : List Question :=
  let templates := questionTemplates "situational".data difficulty
  (sampleStr templates (min templates.length count)).map (fun t =>
    { question := t
      category := "situational".data
      difficulty := difficulty
      expectedAnswer := some ("Expected to demonstrate problem-solving approach and decision-making process.").data })

/-- `_generate_general_questions(count, difficulty)`. -/
def generateGeneralQuestions (sampleStr : List Str → Nat → List Str)
    (count : Nat) (difficulty : Str) : List Question :=
  let templates := questionTemplates "general".data difficulty
  (sampleStr templates (min templates.length count)).map (fun t =>
    { question := t
      category := "general".data
      difficulty := difficulty
      expectedAnswer := some ("Expected to show passion, communication skills, and cultural fit.").data })

/-- `generate(job_role, difficulty, resume_data, question_count)`.
`resume_skills` is `resume_data.get('skills')` (`none` covers both a missing
`resume_data` and a missing key); the emptiness test mirrors Python
truthiness.  The role-specific quota subtraction never goes below zero in
Python either, because the skill-based batch has at most
`distribution.technical` members, all of category `'technical'`. -/
def generate (sampleStr : List Str → Nat → List Str) (choiceT : Nat → List Str → Str)
    (sampleQ : List Question → Nat → List Question)
    (shuffleQ : List Question → List Question)
    (job_role difficulty : Str) (resume_skills : Option (List Str))
    (question_count : Nat) : List Question :=
  let diff_level := difficultyLevel difficulty
  let distribution := getQuestionDistribution question_count
  let tech_questions :=
    match resume_skills with
    | some skills =>
      if skills.isEmpty then []
      else generateTechnicalQuestions sampleStr choiceT skills distribution.technical diff_level
    | none => []
  let role_questions := generateRoleSpecificQuestions sampleQ job_role
    (distribution.technical - tech_questions.countP (fun q => q.category == "technical".data))
  let behavioral_questions := generateBehavioralQuestions sampleStr distribution.behavioral diff_level
  let situational_questions := generateSituationalQuestions sampleStr distribution.situational diff_level
  let general_questions := generateGeneralQuestions sampleStr distribution.general diff_level
  (shuffleQ (tech_questions ++ role_questions ++ behavioral_questions ++
    situational_questions ++ general_questions)).take question_count

/-! ### `FeedbackGenerator` (services/feedback_generator.py)

Each `random.choice` over a template bucket is modelled by a `pick`
function parameter applied to the bucket's pool, indexed by the position of
the `random.choice` call inside the function. -/

/-- `feedback_templates['strengths']['high_technical']`. -/
def highTechnicalStrengths : List String :=
  ["Excellent technical depth and accuracy in your response",
   "Strong demonstration of technical knowledge and expertise",
   "Impressive understanding of technical concepts and implementation",
   "Great technical insight and practical application knowledge"]

/-- `feedback_templates['strengths']['good_structure']`. -/
def goodStructureStrengths : List String :=
  ["Well-structured and organized response",
   "Clear logical flow in your explanation",
   "Excellent use of the STAR method for storytelling",
   "Good progression from problem to solution"]

/-- `feedback_templates['strengths']['high_confidence']`. -/
def highConfidenceStrengths : List String :=
  ["Confident and assured delivery",
   "Strong conviction in your responses",
   "Excellent communication confidence",
   "Clear and decisive communication style"]

/-- `feedback_templates['strengths']['good_examples']`. -/
def goodExamplesStrengths : List String :=
  ["Great use of specific examples and real-world scenarios",
   "Excellent concrete examples that illustrate your points",
   "Strong practical examples that demonstrate experience",
   "Good use of case studies and specific instances"]

/-- `feedback_templates['strengths']['comprehensive']`. -/
def comprehensiveStrengths : List String :=
  ["Comprehensive and thorough response",
   "Complete coverage of all question aspects",
   "Detailed and well-rounded answer",
   "Thorough exploration of the topic"]

/-- `feedback_templates['improvements']['low_technical']`. -/
def lowTechnicalImprovements : List String :=
  ["Consider adding more technical details and depth",
   "Include more specific technical examples and implementations",
   "Expand on the technical aspects of your solution",
   "Provide more detailed technical reasoning"]

/-- `feedback_templates['improvements']['poor_structure']`. -/
def poorStructureImprovements : List String :=
  ["Try to organize your response with a clearer structure",
   "Consider using the STAR method for behavioral questions",
   "Improve the logical flow of your explanation",
   "Structure your answer with clear beginning, middle, and end"]

/-- `feedback_templates['improvements']['low_confidence']`. -/
def lowConfidenceImprovements : List String :=
  ["Speak with more confidence and conviction",
   "Reduce hedge words like 'maybe' and 'I think'",
   "Be more assertive in your responses",
   "Practice speaking with greater certainty"]

/-- `feedback_templates['improvements']['insufficient_examples']`. -/
def insufficientExamplesImprovements : List String :=
  ["Include more specific examples from your experience",
   "Add concrete scenarios to illustrate your points",
   "Provide real-world examples to support your answers",
   "Use more detailed case studies and specific instances"]

/-- `feedback_templates['improvements']['incomplete']`. -/
def incompleteImprovements : List String :=
  ["Provide more comprehensive coverage of the question",
   "Address all parts of the multi-part question",
   "Expand your response to be more thorough",
   "Include more detail to fully answer the question"]

/-- `feedback_templates['improvements']['too_brief']`. -/
def tooBriefImprovements : List String :=
  ["Expand your response with more detail and examples",
   "Provide a more comprehensive answer",
   "Add more depth to your explanation",
   "Include additional context and background"]

/-- `feedback_templates['improvements']['too_verbose']`. -/
def tooVerboseImprovements : List String :=
  ["Try to be more concise while maintaining key points",
   "Focus on the most important aspects of your answer",
   "Streamline your response for better clarity",
   "Practice delivering more focused responses"]

/-- `feedback_templates['suggestions']['technical_improvement']`. -/
def technicalImprovementSuggestions : List String :=
  ["Practice explaining technical concepts in simple terms",
   "Prepare specific examples of your technical work",
   "Study common technical interview questions for your role",
   "Practice whiteboarding and code explanation"]

/-- `feedback_templates['suggestions']['communication_improvement']`. -/
def communicationImprovementSuggestions : List String :=
  ["Practice the STAR method for behavioral questions",
   "Work on speaking with more confidence and less hesitation",
   "Practice structuring your responses clearly",
   "Record yourself answering questions to improve delivery"]

/-- `feedback_templates['suggestions']['preparation_tips']`. -/
def preparationTipsSuggestions : List String :=
  ["Research the company and role more thoroughly",
   "Prepare more specific examples from your experience",
   "Practice common interview questions for your field",
   "Review your resume and be ready to discuss each point"]

/-- `_identify_strengths(analysis)`: one conditional append per strength
bucket, a default string when nothing fired (keyed on `overall_score >= 50`),
then the first-3 cap. -/
def identifyStrengths (pick : Nat → List String → String) (ar : AnalysisResult) :
    List String :=
  let scores := ar.scores
  let strengths : List String :=
    (if 75 ≤ scores.technical_score then [pick 0 highTechnicalStrengths] else []) ++
    (if 70 ≤ scores.structure_score then [pick 1 goodStructureStrengths] else []) ++
    (if 75 ≤ scores.confidence_score then [pick 2 highConfidenceStrengths] else []) ++
    (if ar.analysis.content_analysis.has_examples then [pick 3 goodExamplesStrengths] else []) ++
    (if 80 ≤ scores.completeness_score then [pick 4 comprehensiveStrengths] else [])
  let strengths :=
    if strengths.isEmpty then
      [if 50 ≤ scores.overall_score then "Good effort in addressing the question"
       else "Thank you for providing a response"]
    else strengths
  strengths.take 3

/-- `_identify_improvements(analysis)`: the buckets fire in the source's
check order — low_technical, poor_structure, low_confidence,
insufficient_examples, then the word-count `if`/`elif` pair (too_brief /
too_verbose), then incomplete — and the list is capped to its first 3. -/
def identifyImprovements (pick : Nat → List String → String) (ar : AnalysisResult) :
    List String :=
  let scores := ar.scores
  let content := ar.analysis.content_analysis
  let improvements : List String :=
    (if scores.technical_score < 50 then [pick 0 lowTechnicalImprovements] else []) ++
    (if scores.structure_score < 50 then [pick 1 poorStructureImprovements] else []) ++
    (if scores.confidence_score < 60 then [pick 2 lowConfidenceImprovements] else []) ++
    (if !content.has_examples then [pick 3 insufficientExamplesImprovements] else []) ++
    (if content.word_count < 50 then [pick 4 tooBriefImprovements]
     else if 400 < content.word_count then [pick 5 tooVerboseImprovements] else []) ++
    (if scores.completeness_score < 60 then [pick 6 incompleteImprovements] else [])
  improvements.take 3

/-- Modelled from the spec: claim C9 and §4.4 of the spec list the
improvement buckets in the order low_technical, poor_structure,
low_confidence, insufficient_examples, incomplete, too_brief, too_verbose —
the incomplete bucket BEFORE the word-count buckets.  This definition
follows the spec's order so it can be compared against
`identifyImprovements`, which follows the source's order. -/
def identifyImprovementsSpecOrder (pick : Nat → List String → String)
    (ar : AnalysisResult) : List String :=
  let scores := ar.scores
  let content := ar.analysis.content_analysis
  let improvements : List String :=
    (if scores.technical_score < 50 then [pick 0 lowTechnicalImprovements] else []) ++
    (if scores.structure_score < 50 then [pick 1 poorStructureImprovements] else []) ++
    (if scores.confidence_score < 60 then [pick 2 lowConfidenceImprovements] else []) ++
    (if !content.has_examples then [pick 3 insufficientExamplesImprovements] else []) ++
    (if scores.completeness_score < 60 then [pick 6 incompleteImprovements] else []) ++
    (if content.word_count < 50 then [pick 4 tooBriefImprovements]
     else if 400 < content.word_count then [pick 5 tooVerboseImprovements] else [])
  improvements.take 3

/-- `_generate_suggestions(analysis)`: three picked buckets, two fixed
strings, a default when nothing fired, and the first-4 cap. -/
def generateSuggestions (pick : Nat → List String → String) (ar : AnalysisResult) :
    List String :=
  let scores := ar.scores
  let suggestions : List String :=
    (if scores.technical_score < 70 then [pick 0 technicalImprovementSuggestions] else []) ++
    (if scores.communication_score < 70 ∨ scores.structure_score < 60 then
      [pick 1 communicationImprovementSuggestions] else []) ++
    (if scores.overall_score < 70 then [pick 2 preparationTipsSuggestions] else []) ++
    (if ar.analysis.structure_analysis.star_score < 50 then
      ["Practice using the STAR method (Situation, Task, Action, Result) for behavioral questions"]
     else []) ++
    (if 3 < ar.analysis.confidence_analysis.hedge_word_count then
      ["Reduce filler words and hedge phrases to sound more confident"]
     else [])
  let suggestions :=
    if suggestions.isEmpty then
      ["Continue practicing interview questions to build confidence and improve responses"]
    else suggestions
  suggestions.take 4

/-! ### Shared helper lemmas -/

set_option maxRecDepth 1000000

lemma countPresent_cons (k : Str) (ks : List Str) (s : Str) :
    countPresent (k :: ks) s = (if containsSub k s then 1 else 0) + countPresent ks s := by
  simp only [countPresent, List.filter_cons]
  split_ifs with hc
  · simp [hc, Nat.add_comm]
  · simp [hc]

lemma countPresent_append (a b : List Str) (s : Str) :
    countPresent (a ++ b) s = countPresent a s + countPresent b s := by
  simp [countPresent, List.filter_append]

/-- Sub-scores of the form `min 100 x` with `0 ≤ x` land in `[0, 100]`. -/
lemma min100_bounds {x : ℚ} (hx : 0 ≤ x) : 0 ≤ min 100 x ∧ min 100 x ≤ 100 :=
  ⟨le_min (by norm_num) hx, min_le_left _ _⟩

/-- The confidence clamp `max 0 (min 100 x)` lands in `[0, 100]`. -/
lemma clamp_bounds (x : ℚ) : 0 ≤ max 0 (min 100 x) ∧ max 0 (min 100 x) ≤ 100 :=
  ⟨le_max_left _ _, max_le (by norm_num) (min_le_left _ _)⟩

/-- The overall-score clamp `min 100 (max 0 x)` lands in `[0, 100]`. -/
lemma clamp_bounds' (x : ℚ) : 0 ≤ min 100 (max 0 x) ∧ min 100 (max 0 x) ≤ 100 :=
  ⟨le_min (by norm_num) (le_max_left _ _), min_le_left _ _⟩

lemma relevance_bounds (answer question category : Str) :
    0 ≤ (analyzeContent answer question category).relevance_score ∧
    (analyzeContent answer question category).relevance_score ≤ 100 := by
  simp only [analyzeContent]
  exact min100_bounds (by positivity)

lemma depth_bounds (answer question category : Str) :
    0 ≤ (analyzeContent answer question category).depth_score ∧
    (analyzeContent answer question category).depth_score ≤ 100 := by
  simp only [analyzeContent]
  exact min100_bounds (by positivity)

/-- Mean of a list of values in `[0, 100]`, with the source's `max(len, 1)`
denominator guard, lies in `[0, 100]`. -/
lemma mean_bounds (l : List ℚ) (h : ∀ x ∈ l, 0 ≤ x ∧ x ≤ 100) :
    0 ≤ l.sum / (max l.length 1 : ℕ) ∧ l.sum / (max l.length 1 : ℕ) ≤ 100 := by
  have hd : (0:ℚ) < (max l.length 1 : ℕ) := by
    have : 1 ≤ max l.length 1 := le_max_right _ _
    exact_mod_cast Nat.lt_of_lt_of_le Nat.zero_lt_one this
  constructor
  · exact div_nonneg (List.sum_nonneg (fun x hx => (h x hx).1)) hd.le
  · rw [div_le_iff₀ hd]
    calc l.sum ≤ l.length • (100:ℚ) := List.sum_le_card_nsmul l 100 (fun x hx => (h x hx).2)
    _ = (l.length : ℚ) * 100 := by rw [nsmul_eq_mul]
    _ ≤ (max l.length 1 : ℕ) * 100 := by
        have : (l.length : ℚ) ≤ (max l.length 1 : ℕ) := by exact_mod_cast le_max_left _ _
        nlinarith
    _ = 100 * (max l.length 1 : ℕ) := by ring

lemma technical_bounds (answer job_role : Str) :
    0 ≤ (analyzeTechnicalContent answer job_role).overall_technical_score ∧
    (analyzeTechnicalContent answer job_role).overall_technical_score ≤ 100 := by
  simp only [analyzeTechnicalContent]
  refine mean_bounds _ (fun x hx => ?_)
  simp only [List.map_map, List.mem_map] at hx
  obtain ⟨p, _, rfl⟩ := hx
  exact min100_bounds (by positivity)

lemma structure_bounds (f : StructureFeatures) :
    0 ≤ (structureScoreOf f).structure_score ∧ (structureScoreOf f).structure_score ≤ 150 := by
  simp only [structureScoreOf]
  obtain ⟨s, t, a, r, fl, hi, hc⟩ := f
  cases s <;> cases t <;> cases a <;> cases r <;> cases fl <;> cases hi <;> cases hc <;> norm_num

lemma confidence_bounds (compound : Option (Str → ℚ)) (answer : Str) :
    0 ≤ (analyzeConfidence compound answer).confidence_score ∧
    (analyzeConfidence compound answer).confidence_score ≤ 100 := by
  simp only [analyzeConfidence]
  exact clamp_bounds _

lemma expectedLengths_band (category : Str) :
    0 < (expectedLengths category).1 ∧
    (expectedLengths category).1 < (expectedLengths category).2 := by
  unfold expectedLengths
  split_ifs <;> norm_num

lemma length_score_bounds (answer question category : Str) :
    0 ≤ (analyzeCompleteness answer question category).length_score ∧
    (analyzeCompleteness answer question category).length_score ≤ 100 := by
  obtain ⟨hb1, hb2⟩ := expectedLengths_band category
  simp only [analyzeCompleteness]
  split_ifs with h1 h2
  · constructor
    · positivity
    · have hw : ((pySplit answer).length : ℚ) ≤ ((expectedLengths category).1 : ℚ) := by
        exact_mod_cast h1.le
      have hm : (0:ℚ) < ((expectedLengths category).1 : ℚ) := by exact_mod_cast hb1
      have : ((pySplit answer).length : ℚ) / ((expectedLengths category).1 : ℚ) ≤ 1 := by
        rw [div_le_one hm]; exact hw
      nlinarith
  · have hm : (0:ℚ) < ((expectedLengths category).2 : ℚ) := by
      exact_mod_cast Nat.lt_trans hb1 hb2
    have hw : ((expectedLengths category).2 : ℚ) ≤ ((pySplit answer).length : ℚ) := by
      exact_mod_cast h2.le
    constructor
    · have : (70:ℚ) ≤ max 70 (100 - (((pySplit answer).length : ℚ) -
          (expectedLengths category).2) / (expectedLengths category).2 * 30) := le_max_left _ _
      linarith
    · refine max_le (by norm_num) ?_
      have hnn : 0 ≤ (((pySplit answer).length : ℚ) - (expectedLengths category).2) /
          (expectedLengths category).2 * 30 := by
        have : 0 ≤ (((pySplit answer).length : ℚ) - (expectedLengths category).2) := by linarith
        positivity
      linarith
  · norm_num

lemma completeness_bounds (answer question category : Str) :
    0 ≤ (analyzeCompleteness answer question category).completeness_score ∧
    (analyzeCompleteness answer question category).completeness_score ≤ 100 := by
  have hls := length_score_bounds answer question category
  revert hls
  simp only [analyzeCompleteness]
  intro hls
  obtain ⟨h1, h2⟩ := hls
  constructor
  · have : (0:ℚ) ≤ (if decide (max 1 (countSub ['?'] question + countSub "and".data question +
        countSub "or".data question) ≤ (splitDot answer).length) = true then (20:ℚ) else 0) := by
      split_ifs <;> norm_num
    have h12 : (0:ℚ) < 1.2 := by norm_num
    positivity
  · have : (if decide (max 1 (countSub ['?'] question + countSub "and".data question +
        countSub "or".data question) ≤ (splitDot answer).length) = true then (20:ℚ) else 0) ≤ 20 := by
      split_ifs <;> norm_num
    rw [div_le_iff₀ (by norm_num : (0:ℚ) < 1.2)]
    linarith

lemma take3_ne_nil {α : Type} (l : List α) (h : l ≠ []) : l.take 3 ≠ [] := by
  rw [Ne, List.take_eq_nil_iff]
  rintro (h3 | hl)
  · exact absurd h3 (by norm_num)
  · exact h hl

lemma ensure_nonempty {α : Type} (l : List α) (d : α) :
    (if l.isEmpty then [d] else l) ≠ [] := by
  split_ifs with h
  · simp
  · intro hl
    rw [hl] at h
    simp at h

lemma generateTechnicalQuestions_length (sampleStr : List Str → Nat → List Str)
    (choiceT : Nat → List Str → Str) (skills : List Str) (count : Nat) (difficulty : Str)
    (Hs : ∀ (l : List Str) (n : Nat), n ≤ l.length → (sampleStr l n).length = n) :
    (generateTechnicalQuestions sampleStr choiceT skills count difficulty).length =
      min skills.length count := by
  simp only [generateTechnicalQuestions, List.length_map, List.enum_length, List.length_take,
    Hs _ _ (min_le_left _ _)]
  omega

lemma generateTechnicalQuestions_cat (sampleStr : List Str → Nat → List Str)
    (choiceT : Nat → List Str → Str) (skills : List Str) (count : Nat) (difficulty : Str) :
    ∀ q ∈ generateTechnicalQuestions sampleStr choiceT skills count difficulty,
      (q.category == "technical".data) = true := by
  intro q hq
  simp only [generateTechnicalQuestions, List.mem_map] at hq
  obtain ⟨p, _, rfl⟩ := hq
  rfl

lemma generateBehavioralQuestions_length (sampleStr : List Str → Nat → List Str)
    (count : Nat) (difficulty : Str)
    (Hs : ∀ (l : List Str) (n : Nat), n ≤ l.length → (sampleStr l n).length = n) :
    (generateBehavioralQuestions sampleStr count difficulty).length =
      min (questionTemplates "behavioral".data difficulty).length count := by
  simp only [generateBehavioralQuestions, List.length_map, Hs _ _ (min_le_left _ _)]

lemma generateBehavioralQuestions_cat (sampleStr : List Str → Nat → List Str)
    (count : Nat) (difficulty : Str) :
    ∀ q ∈ generateBehavioralQuestions sampleStr count difficulty,
      (q.category == "behavioral".data) = true := by
  intro q hq
  simp only [generateBehavioralQuestions, List.mem_map] at hq
  obtain ⟨p, _, rfl⟩ := hq
  rfl

lemma generateSituationalQuestions_length (sampleStr : List Str → Nat → List Str)
    (count : Nat) (difficulty : Str)
    (Hs : ∀ (l : List Str) (n : Nat), n ≤ l.length → (sampleStr l n).length = n) :
    (generateSituationalQuestions sampleStr count difficulty).length =
      min (questionTemplates "situational".data difficulty).length count := by
  simp only [generateSituationalQuestions, List.length_map, Hs _ _ (min_le_left _ _)]

lemma generateSituationalQuestions_cat (sampleStr : List Str → Nat → List Str)
    (count : Nat) (difficulty : Str) :
    ∀ q ∈ generateSituationalQuestions sampleStr count difficulty,
      (q.category == "situational".data) = true := by
  intro q hq
  simp only [generateSituationalQuestions, List.mem_map] at hq
  obtain ⟨p, _, rfl⟩ := hq
  rfl

lemma generateGeneralQuestions_length (sampleStr : List Str → Nat → List Str)
    (count : Nat) (difficulty : Str)
    (Hs : ∀ (l : List Str) (n : Nat), n ≤ l.length → (sampleStr l n).length = n) :
    (generateGeneralQuestions sampleStr count difficulty).length =
      min (questionTemplates "general".data difficulty).length count := by
  simp only [generateGeneralQuestions, List.length_map, Hs _ _ (min_le_left _ _)]

lemma generateGeneralQuestions_cat (sampleStr : List Str → Nat → List Str)
    (count : Nat) (difficulty : Str) :
    ∀ q ∈ generateGeneralQuestions sampleStr count difficulty,
      (q.category == "general".data) = true := by
  intro q hq
  simp only [generateGeneralQuestions, List.mem_map] at hq
  obtain ⟨p, _, rfl⟩ := hq
  rfl

lemma generateRoleSpecificQuestions_length (sampleQ : List Question → Nat → List Question)
    (job_role : Str) (count : Nat)
    (Hq : ∀ (l : List Question) (n : Nat), n ≤ l.length → (sampleQ l n).length = n) :
    (generateRoleSpecificQuestions sampleQ job_role count).length =
      min (roleSpecificPool job_role).length count := by
  simp only [generateRoleSpecificQuestions]
  split_ifs with h
  · rw [List.isEmpty_iff] at h
    simp [h]
  · exact Hq _ _ (min_le_left _ _)

lemma count_instance_bridge (c : Str) (l : List Str) :
    @List.count _ List.instBEq c l = @List.count _ (instBEqOfDecidableEq) c l := by
  induction l with
  | nil => rfl
  | cons x xs ih => simp [List.count_cons, ih]

/-! ### Concrete inputs used by witnesses and counterexamples -/

/-- A behavioral answer exhibiting all four STAR components, a flow marker,
a long first sentence and a closing conclusion phrase. -/
def starMethodAnswer : Str :=
  ("In that situation our task was clear and urgent. First I implemented the action we decided on. The result improved our metrics overall. In conclusion, it was successful.").data

/-- A 50-word answer ("a" repeated) with no period. -/
def c4Answer : Str := (List.replicate 50 "a ".data).flatten

/-- `confidence_keywords['low']` without `'maybe'`. -/
def confidenceLowRest : List Str :=
  ["perhaps", "might", "possibly", "unsure", "think", "guess"].map String.data

/-- `hedge_words` without `'maybe'`. -/
def hedgeWordsRest : List Str :=
  ["kind of", "sort of", "i think", "i believe", "probably"].map String.data

/-- An analysis result on which the source's improvement-bucket order and the
spec's table order pick observably different third improvements: technical 40,
structure 40, confidence 70, completeness 50, word count 30, with examples. -/
def c9Analysis : AnalysisResult :=
  { analysis :=
    { content_analysis :=
      { word_count := 30, sentence_count := 2, relevance_score := 50, depth_score := 0,
        has_examples := true }
      linguistic_analysis := { readability_score := 50 }
      technical_analysis :=
      { technical_categories := [], role_technical_score := 0, has_code_example := false,
        overall_technical_score := 40 }
      structure_analysis :=
      { star_score := 100, has_logical_flow := false, has_introduction := false,
        has_conclusion := false, structure_score := 40 }
      confidence_analysis :=
      { confidence_score := 70, high_confidence_indicators := 0, low_confidence_indicators := 0,
        hedge_word_count := 0, sentiment_score := 50 }
      completeness_analysis :=
      { word_count := 30, length_score := 40, addresses_all_parts := true,
        completeness_score := 50 } }
    scores :=
    { overall_score := 50, content_score := 25, technical_score := 40, structure_score := 40,
      confidence_score := 70, completeness_score := 50, communication_score := 60 } }

/-! ### Claim C1 -/

/-- C1 (counterexample): the claim that every sub-score of a normal-path
`ScoreSet` lies in `[0, 100]` is false — `_analyze_structure` never clamps,
so a behavioral answer with all four STAR components, a flow marker, an
introduction and a conclusion phrase drives `structure_score` to 150, and
this 150 flows unchanged into the `ScoreSet` built by `_calculate_scores`. -/
theorem c1_structure_score_exceeds_100 :
    10 ≤ (stripWs starMethodAnswer).length ∧
    ¬((analyze (fun _ => 50) none "Tell me about a challenge you faced.".data starMethodAnswer
        "behavioral".data "software engineer".data).scores.structure_score ≤ 100) := by
  constructor
  · decide
  · have h150 : (analyze (fun _ => 50) none "Tell me about a challenge you faced.".data
        starMethodAnswer "behavioral".data "software engineer".data).scores.structure_score = 150 := by
      unfold analyze
      rw [if_neg (by decide)]
      simp only [calculateScores]
      have hf : structureFeatures starMethodAnswer "behavioral".data =
          ⟨true, true, true, true, true, true, true⟩ := rfl
      unfold analyzeStructure
      rw [hf]
      simp only [structureScoreOf]
      norm_num
    rw [h150]
    norm_num

/-- C1 (amended): on the normal (non-short-circuit) analysis path, for every
question, answer, category and job role, the content, technical, confidence
and completeness sub-scores and the overall score of the resulting
`ScoreSet` lie in `[0, 100]`; the structure sub-score is only guaranteed to
lie in `[0, 150]`, because `_analyze_structure` applies no clamp. -/
theorem c1_subscore_bounds_amended (fre : Str → ℚ) (compound : Option (Str → ℚ))
    (question answer category job_role : Str)
    (h : 10 ≤ (stripWs answer).length) :
    let s := (analyze fre compound question answer category job_role).scores
    (0 ≤ s.content_score ∧ s.content_score ≤ 100) ∧
    (0 ≤ s.technical_score ∧ s.technical_score ≤ 100) ∧
    (0 ≤ s.structure_score ∧ s.structure_score ≤ 150) ∧
    (0 ≤ s.confidence_score ∧ s.confidence_score ≤ 100) ∧
    (0 ≤ s.completeness_score ∧ s.completeness_score ≤ 100) ∧
    (0 ≤ s.overall_score ∧ s.overall_score ≤ 100) := by
  intro s
  have hne : ¬(answer = [] ∨ (stripWs answer).length < 10) := by
    rintro (rfl | hlt)
    · simp [stripWs] at h
    · omega
  have hs : s = calculateScores
      { content_analysis := analyzeContent answer question category
        linguistic_analysis := analyzeLinguistics fre answer
        technical_analysis := analyzeTechnicalContent answer job_role
        structure_analysis := analyzeStructure answer category
        confidence_analysis := analyzeConfidence compound answer
        completeness_analysis := analyzeCompleteness answer question category } := by
    show (analyze fre compound question answer category job_role).scores = _
    unfold analyze
    rw [if_neg hne]
  obtain ⟨hr1, hr2⟩ := relevance_bounds answer question category
  obtain ⟨hd1, hd2⟩ := depth_bounds answer question category
  obtain ⟨ht1, ht2⟩ := technical_bounds answer job_role
  obtain ⟨hst1, hst2⟩ := structure_bounds (structureFeatures answer category)
  obtain ⟨hc1, hc2⟩ := confidence_bounds compound answer
  obtain ⟨hcp1, hcp2⟩ := completeness_bounds answer question category
  rw [hs]
  simp only [calculateScores, analyzeStructure]
  refine ⟨⟨by linarith, by linarith⟩, ⟨ht1, ht2⟩, ⟨hst1, hst2⟩, ⟨hc1, hc2⟩, ⟨hcp1, hcp2⟩,
    clamp_bounds' _⟩

/-- Witness for C1 (amended) at a concrete behavioral input. -/
theorem c1_subscore_bounds_witness :
    10 ≤ (stripWs starMethodAnswer).length ∧
    (let s := (analyze (fun _ => 50) none "Tell me about your role.".data starMethodAnswer
        "behavioral".data "software engineer".data).scores
     (0 ≤ s.content_score ∧ s.content_score ≤ 100) ∧
     (0 ≤ s.technical_score ∧ s.technical_score ≤ 100) ∧
     (0 ≤ s.structure_score ∧ s.structure_score ≤ 150) ∧
     (0 ≤ s.confidence_score ∧ s.confidence_score ≤ 100) ∧
     (0 ≤ s.completeness_score ∧ s.completeness_score ≤ 100) ∧
     (0 ≤ s.overall_score ∧ s.overall_score ≤ 100)) :=
  ⟨by decide, c1_subscore_bounds_amended _ _ _ _ _ _ (by decide)⟩

/-! ### Claim C2 -/

/-- C2: `generate` called for a software engineer at intermediate difficulty
with skills Python and React and a requested count of 10 returns exactly 10
question records, whose per-category counts sum to 10 and which include at
least 2 technical, at least 2 behavioral, at least 1 situational and at
least 1 general question — for every sampler satisfying `random.sample`'s
length guarantee and every shuffle that permutes. -/
theorem c2_generate_ten_distribution (sampleStr : List Str → Nat → List Str)
    (choiceT : Nat → List Str → Str) (sampleQ : List Question → Nat → List Question)
    (shuffleQ : List Question → List Question)
    (Hs : ∀ (l : List Str) (n : Nat), n ≤ l.length → (sampleStr l n).length = n)
    (Hq : ∀ (l : List Question) (n : Nat), n ≤ l.length → (sampleQ l n).length = n)
    (Hsh : ∀ l : List Question, (shuffleQ l).Perm l) :
    let qs := generate sampleStr choiceT sampleQ shuffleQ "software engineer".data
      "intermediate".data (some ["Python".data, "React".data]) 10
    qs.length = 10 ∧
    ((qs.map Question.category).dedup.map (fun c => (qs.map Question.category).count c)).sum = 10 ∧
    2 ≤ qs.countP (fun q => q.category == "technical".data) ∧
    2 ≤ qs.countP (fun q => q.category == "behavioral".data) ∧
    1 ≤ qs.countP (fun q => q.category == "situational".data) ∧
    1 ≤ qs.countP (fun q => q.category == "general".data) := by
  intro qs
  set tq := generateTechnicalQuestions sampleStr choiceT ["Python".data, "React".data]
    (getQuestionDistribution 10).technical (difficultyLevel "intermediate".data) with htq
  set rq := generateRoleSpecificQuestions sampleQ "software engineer".data
    ((getQuestionDistribution 10).technical - tq.countP (fun q => q.category == "technical".data))
    with hrq
  set bq := generateBehavioralQuestions sampleStr (getQuestionDistribution 10).behavioral
    (difficultyLevel "intermediate".data) with hbq
  set sq := generateSituationalQuestions sampleStr (getQuestionDistribution 10).situational
    (difficultyLevel "intermediate".data) with hsq
  set gq := generateGeneralQuestions sampleStr (getQuestionDistribution 10).general
    (difficultyLevel "intermediate".data) with hgq
  have hqs : qs = (shuffleQ (tq ++ rq ++ bq ++ sq ++ gq)).take 10 := rfl
  have hTlen : tq.length = 2 := by
    rw [htq, generateTechnicalQuestions_length _ _ _ _ _ Hs]
    rfl
  have hTcnt : tq.countP (fun q => q.category == "technical".data) = 2 := by
    rw [List.countP_eq_length.mpr (generateTechnicalQuestions_cat _ _ _ _ _), hTlen]
  have hRlen : rq.length = 2 := by
    rw [hrq, generateRoleSpecificQuestions_length _ _ _ Hq, hTcnt]
    rfl
  have hBlen : bq.length = 3 := by
    rw [hbq, generateBehavioralQuestions_length _ _ _ Hs]
    rfl
  have hBcnt : bq.countP (fun q => q.category == "behavioral".data) = 3 := by
    rw [List.countP_eq_length.mpr (generateBehavioralQuestions_cat _ _ _), hBlen]
  have hSlen : sq.length = 2 := by
    rw [hsq, generateSituationalQuestions_length _ _ _ Hs]
    rfl
  have hScnt : sq.countP (fun q => q.category == "situational".data) = 2 := by
    rw [List.countP_eq_length.mpr (generateSituationalQuestions_cat _ _ _), hSlen]
  have hGlen : gq.length = 1 := by
    rw [hgq, generateGeneralQuestions_length _ _ _ Hs]
    rfl
  have hGcnt : gq.countP (fun q => q.category == "general".data) = 1 := by
    rw [List.countP_eq_length.mpr (generateGeneralQuestions_cat _ _ _), hGlen]
  have hAlen : (tq ++ rq ++ bq ++ sq ++ gq).length = 10 := by
    simp [hTlen, hRlen, hBlen, hSlen, hGlen]
  have hperm := Hsh (tq ++ rq ++ bq ++ sq ++ gq)
  have hshlen : (shuffleQ (tq ++ rq ++ bq ++ sq ++ gq)).length = 10 := by
    rw [hperm.length_eq, hAlen]
  have hqs' : qs = shuffleQ (tq ++ rq ++ bq ++ sq ++ gq) := by
    rw [hqs]
    exact List.take_of_length_le (le_of_eq hshlen)
  have hlen10 : qs.length = 10 := by rw [hqs', hshlen]
  refine ⟨hlen10, ?_, ?_, ?_, ?_, ?_⟩
  · have hgen := List.sum_map_count_dedup_eq_length (qs.map Question.category)
    rw [List.length_map, hlen10] at hgen
    simp only [count_instance_bridge]
    exact hgen
  · rw [hqs', hperm.countP_eq, List.countP_append, List.countP_append, List.countP_append,
      List.countP_append]
    omega
  · rw [hqs', hperm.countP_eq, List.countP_append, List.countP_append, List.countP_append,
      List.countP_append]
    omega
  · rw [hqs', hperm.countP_eq, List.countP_append, List.countP_append, List.countP_append,
      List.countP_append]
    omega
  · rw [hqs', hperm.countP_eq, List.countP_append, List.countP_append, List.countP_append,
      List.countP_append]
    omega

/-- Witness for C2 with the deterministic take-prefix sampler and the
identity shuffle. -/
theorem c2_generate_ten_distribution_witness :
    let qs := generate (fun l n => l.take n) (fun _ l => l.headI) (fun l n => l.take n)
      (fun l => l) "software engineer".data "intermediate".data
      (some ["Python".data, "React".data]) 10
    qs.length = 10 ∧
    ((qs.map Question.category).dedup.map (fun c => (qs.map Question.category).count c)).sum = 10 ∧
    2 ≤ qs.countP (fun q => q.category == "technical".data) ∧
    2 ≤ qs.countP (fun q => q.category == "behavioral".data) ∧
    1 ≤ qs.countP (fun q => q.category == "situational".data) ∧
    1 ≤ qs.countP (fun q => q.category == "general".data) :=
  c2_generate_ten_distribution _ _ _ _
    (fun l n h => by rw [List.length_take]; omega)
    (fun l n h => by rw [List.length_take]; omega)
    (fun l => List.Perm.refl l)

/-! ### Claim C3 -/

/-- C3: for every answer whose trimmed length is strictly below 10
characters (the empty answer included), `analyze` takes the insufficient
short-circuit before any feature extraction and every field of the returned
score dictionary — overall, content, technical, structure, confidence,
completeness and communication — is exactly 0. -/
theorem c3_insufficient_answer_zero_scores (fre : Str → ℚ) (compound : Option (Str → ℚ))
    (question answer category job_role : Str)
    (h : (stripWs answer).length < 10) :
    (analyze fre compound question answer category job_role).scores =
      { overall_score := 0, content_score := 0, technical_score := 0, structure_score := 0,
        confidence_score := 0, completeness_score := 0, communication_score := 0 } := by
  unfold analyze
  rw [if_pos (Or.inr h)]
  rfl

/-- Witness for C3 at the concrete answer `"  short "`. -/
theorem c3_insufficient_answer_zero_scores_witness :
    (stripWs "  short ".data).length < 10 ∧
    (analyze (fun _ => 50) none "Tell me about APIs.".data "  short ".data
      "technical".data "software engineer".data).scores =
      { overall_score := 0, content_score := 0, technical_score := 0, structure_score := 0,
        confidence_score := 0, completeness_score := 0, communication_score := 0 } := by
  have h : (stripWs "  short ".data).length < 10 := by decide
  exact ⟨h, c3_insufficient_answer_zero_scores _ _ _ _ _ _ h⟩

/-! ### Claim C4 -/

/-- C4 (counterexample): at exactly the category minimum word count the
completeness score is NOT always 100 — a 50-word general-category answer
with no period, asked a two-part question, gets `length_score = 100` but
`completeness_score = 100 / 1.2 ≈ 83.3`, because `addresses_all_parts`
fails and the claimed identity holds only for the length component. -/
theorem c4_completeness_not_100_at_min :
    (pySplit c4Answer).length = (expectedLengths "general".data).1 ∧
    (analyzeCompleteness c4Answer "Why? How?".data "general".data).completeness_score ≠ 100 := by
  refine ⟨by decide, ?_⟩
  have hwc : (pySplit c4Answer).length = 50 := by decide
  have hcat : expectedLengths "general".data = (50, 200) := by decide
  have haddr : decide (max 1 (countSub ['?'] "Why? How?".data +
      countSub "and".data "Why? How?".data + countSub "or".data "Why? How?".data) ≤
      (splitDot c4Answer).length) = false := by decide
  simp only [analyzeCompleteness, hwc, hcat, haddr]
  norm_num

/-- C4 (amended): for every answer whose word count equals exactly the
minimum of its category's expected word-count band, the band boundary is
inclusive and the length score equals 100; the completeness score itself
equals 100 exactly when the answer additionally addresses all question
parts, and equals `100 / 1.2` otherwise. -/
theorem c4_min_word_count_amended (answer question category : Str)
    (h : (pySplit answer).length = (expectedLengths category).1) :
    (analyzeCompleteness answer question category).length_score = 100 ∧
    ((analyzeCompleteness answer question category).completeness_score = 100 ↔
      (analyzeCompleteness answer question category).addresses_all_parts = true) ∧
    ((analyzeCompleteness answer question category).addresses_all_parts = false →
      (analyzeCompleteness answer question category).completeness_score = 100 / 1.2) := by
  obtain ⟨hb1, hb2⟩ := expectedLengths_band category
  simp only [analyzeCompleteness, h]
  rw [if_neg (lt_irrefl _), if_neg (by omega)]
  refine ⟨rfl, ?_, ?_⟩
  · cases hb : decide (max 1 (countSub ['?'] question + countSub "and".data question +
        countSub "or".data question) ≤ (splitDot answer).length)
    · simp only [Bool.false_eq_true, if_false, iff_false]
      norm_num
    · simp only [if_true, iff_true]
      norm_num
  · intro hf
    rw [hf]
    norm_num

/-- Witness for C4 (amended): the same 50-word general answer asked a
one-part question addresses all parts and scores a full 100. -/
theorem c4_min_word_count_witness :
    (pySplit c4Answer).length = (expectedLengths "general".data).1 ∧
    (analyzeCompleteness c4Answer "Why?".data "general".data).addresses_all_parts = true ∧
    (analyzeCompleteness c4Answer "Why?".data "general".data).completeness_score = 100 := by
  have h : (pySplit c4Answer).length = (expectedLengths "general".data).1 := by decide
  have ha : (analyzeCompleteness c4Answer "Why?".data "general".data).addresses_all_parts
      = true := by decide
  exact ⟨h, ha, (c4_min_word_count_amended _ _ _ h).2.1.mpr ha⟩

/-! ### Claim C5 -/

/-- C5: a behavioral answer with at least one indicator for each of the four
STAR components, a logical-flow marker, a first sentence longer than 20
characters and a conclusion phrase in its final 100 characters receives a
structure score of exactly 150 (25 per STAR component, plus 25 flow,
15 introduction, 10 conclusion, with no clamp). -/
theorem c5_full_structure_score_150 (answer : Str)
    (h1 : anyPresent situationIndicators (lowerStr answer) = true)
    (h2 : anyPresent taskIndicators (lowerStr answer) = true)
    (h3 : anyPresent actionIndicators (lowerStr answer) = true)
    (h4 : anyPresent resultIndicators (lowerStr answer) = true)
    (h5 : 0 < countPresent flowIndicators (lowerStr answer))
    (h6 : containsSub ['.'] answer = true)
    (h7 : 20 < ((splitDot answer).headI).length)
    (h8 : anyPresent conclusionPhrases (lastN 100 (lowerStr answer)) = true) :
    (analyzeStructure answer "behavioral".data).structure_score = 150 := by
  have hf : structureFeatures answer "behavioral".data =
      ⟨true, true, true, true, true, true, true⟩ := by
    simp only [structureFeatures, h1, h2, h3, h4, h8, h6, if_true, beq_self_eq_true,
      Bool.true_and, decide_eq_true h5, decide_eq_true h7]
  unfold analyzeStructure
  rw [hf]
  simp only [structureScoreOf]
  norm_num

/-- Witness for C5 at a concrete STAR-complete behavioral answer. -/
theorem c5_full_structure_score_150_witness :
    anyPresent situationIndicators (lowerStr starMethodAnswer) = true ∧
    anyPresent taskIndicators (lowerStr starMethodAnswer) = true ∧
    anyPresent actionIndicators (lowerStr starMethodAnswer) = true ∧
    anyPresent resultIndicators (lowerStr starMethodAnswer) = true ∧
    0 < countPresent flowIndicators (lowerStr starMethodAnswer) ∧
    containsSub ['.'] starMethodAnswer = true ∧
    20 < ((splitDot starMethodAnswer).headI).length ∧
    anyPresent conclusionPhrases (lastN 100 (lowerStr starMethodAnswer)) = true ∧
    (analyzeStructure starMethodAnswer "behavioral".data).structure_score = 150 := by
  refine ⟨by decide, by decide, by decide, by decide, by decide, by decide, by decide,
    by decide, ?_⟩
  exact c5_full_structure_score_150 _ (by decide) (by decide) (by decide) (by decide)
    (by decide) (by decide) (by decide) (by decide)

/-! ### Claim C6 -/

/-- C6: for every five-way sub-analysis, `_calculate_scores` returns an
overall score equal to content×0.25 + technical×0.25 + structure×0.20 +
confidence×0.15 + completeness×0.15 clamped to `[0, 100]`, with the content
sub-score the average of relevance and depth and the communication score
the average of readability and confidence. -/
theorem c6_aggregation_formula (a : Analysis) :
    (calculateScores a).overall_score =
      min 100 (max 0 ((calculateScores a).content_score * 0.25 +
        (calculateScores a).technical_score * 0.25 +
        (calculateScores a).structure_score * 0.20 +
        (calculateScores a).confidence_score * 0.15 +
        (calculateScores a).completeness_score * 0.15)) ∧
    (calculateScores a).content_score =
      (a.content_analysis.relevance_score + a.content_analysis.depth_score) / 2 ∧
    (calculateScores a).communication_score =
      (a.linguistic_analysis.readability_score + (calculateScores a).confidence_score) / 2 :=
  ⟨rfl, rfl, rfl⟩

/-! ### Claim C7 -/

/-- C7: score aggregation is deterministic — `_calculate_scores` is a pure
function of the analysis record, so equal inputs give identical
`ScoreSet`s. -/
theorem c7_aggregation_deterministic (a b : Analysis) (h : a = b) :
    calculateScores a = calculateScores b := by rw [h]

/-- Witness for C7 at a concrete analysis record. -/
theorem c7_aggregation_deterministic_witness :
    calculateScores insufficientAnswerAnalysis.analysis =
      calculateScores insufficientAnswerAnalysis.analysis :=
  c7_aggregation_deterministic _ _ rfl

/-! ### Claim C8 -/

/-- C8: under `random.sample`'s contract (a sample of `k ≤ len(pool)`
elements drawn at distinct positions), the source's clamped call pattern
`sample(pool, min(len(pool), count))` requests at most the pool size,
returns exactly `min(len(pool), count)` items, and keeps a duplicate-free
pool duplicate-free; in particular requesting 20 role-specific questions
for a frontend developer, whose pool has 5, returns exactly 5 questions
with no duplicates. -/
theorem c8_sampling_without_replacement_safe (sampleQ : List Question → Nat → List Question)
    (Hlen : ∀ (l : List Question) (n : Nat), n ≤ l.length → (sampleQ l n).length = n)
    (Hsel : ∀ (l : List Question) (n : Nat), n ≤ l.length →
      ∃ l', l'.Sublist l ∧ (sampleQ l n).Perm l') :
    (∀ (l : List Question) (n : Nat),
      min l.length n ≤ l.length ∧
      (sampleQ l (min l.length n)).length = min l.length n ∧
      (l.Nodup → (sampleQ l (min l.length n)).Nodup)) ∧
    (generateRoleSpecificQuestions sampleQ "frontend developer".data 20).length = 5 ∧
    (generateRoleSpecificQuestions sampleQ "frontend developer".data 20).Nodup := by
  have hgeneric : ∀ (l : List Question) (n : Nat),
      min l.length n ≤ l.length ∧
      (sampleQ l (min l.length n)).length = min l.length n ∧
      (l.Nodup → (sampleQ l (min l.length n)).Nodup) := by
    intro l n
    refine ⟨min_le_left _ _, Hlen _ _ (min_le_left _ _), fun hnd => ?_⟩
    obtain ⟨l', hsub, hperm⟩ := Hsel l (min l.length n) (min_le_left _ _)
    exact hperm.nodup_iff.mpr (hsub.nodup hnd)
  have hne : (roleSpecificPool "frontend developer".data).isEmpty = false := rfl
  have hul : generateRoleSpecificQuestions sampleQ "frontend developer".data 20 =
      sampleQ (roleSpecificPool "frontend developer".data)
        (min (roleSpecificPool "frontend developer".data).length 20) := by
    simp only [generateRoleSpecificQuestions, hne, Bool.false_eq_true, if_false]
  have hmin : min (roleSpecificPool "frontend developer".data).length 20 = 5 := rfl
  refine ⟨hgeneric, ?_, ?_⟩
  · rw [hul, hmin]
    exact Hlen _ _ (by decide)
  · rw [hul]
    exact (hgeneric _ 20).2.2 (by decide)

/-- Witness for C8 with the deterministic take-prefix sampler. -/
theorem c8_sampling_without_replacement_witness :
    (generateRoleSpecificQuestions (fun (l : List Question) n => l.take n)
      "frontend developer".data 20).length = 5 ∧
    (generateRoleSpecificQuestions (fun (l : List Question) n => l.take n)
      "frontend developer".data 20).Nodup :=
  ⟨(c8_sampling_without_replacement_safe _ (fun l n h => by rw [List.length_take]; omega)
      (fun l n h => ⟨l.take n, List.take_sublist _ _, List.Perm.refl _⟩)).2.1,
   (c8_sampling_without_replacement_safe _ (fun l n h => by rw [List.length_take]; omega)
      (fun l n h => ⟨l.take n, List.take_sublist _ _, List.Perm.refl _⟩)).2.2⟩

/-! ### Claim C9 -/

/-- C9 (counterexample): the improvements list is NOT the first 3 fired
buckets of the spec's table order (low_technical, poor_structure,
low_confidence, insufficient_examples, incomplete, too_brief, too_verbose):
on an analysis firing low_technical, poor_structure, too_brief and
incomplete, the source's third improvement comes from too_brief while the
spec order's comes from incomplete. -/
theorem c9_improvement_order_differs :
    identifyImprovements (fun _ l => l.headI) c9Analysis ≠
      identifyImprovementsSpecOrder (fun _ l => l.headI) c9Analysis := by
  norm_num [identifyImprovements, identifyImprovementsSpecOrder, c9Analysis,
    lowTechnicalImprovements, poorStructureImprovements, lowConfidenceImprovements,
    insufficientExamplesImprovements, incompleteImprovements, tooBriefImprovements,
    tooVerboseImprovements]
  decide

/-- C9 (amended): the improvements list is the first 3 fired buckets in the
source's check order — low_technical, poor_structure, low_confidence,
insufficient_examples, too_brief, too_verbose, incomplete (word-count
buckets BEFORE the incomplete bucket) — and is capped at 3; strengths are
capped at 3 and never empty, falling back to a default string keyed on
`overall_score ≥ 50` when no strength bucket fires; suggestions are capped
at 4. -/
theorem c9_feedback_caps_amended (pickI pickS pickG : Nat → List String → String)
    (ar : AnalysisResult) :
    identifyImprovements pickI ar =
      ((if ar.scores.technical_score < 50 then [pickI 0 lowTechnicalImprovements] else []) ++
       (if ar.scores.structure_score < 50 then [pickI 1 poorStructureImprovements] else []) ++
       (if ar.scores.confidence_score < 60 then [pickI 2 lowConfidenceImprovements] else []) ++
       (if !ar.analysis.content_analysis.has_examples then
         [pickI 3 insufficientExamplesImprovements] else []) ++
       (if ar.analysis.content_analysis.word_count < 50 then [pickI 4 tooBriefImprovements]
        else if 400 < ar.analysis.content_analysis.word_count then
          [pickI 5 tooVerboseImprovements] else []) ++
       (if ar.scores.completeness_score < 60 then [pickI 6 incompleteImprovements]
        else [])).take 3 ∧
    (identifyImprovements pickI ar).length ≤ 3 ∧
    (identifyStrengths pickS ar).length ≤ 3 ∧
    identifyStrengths pickS ar ≠ [] ∧
    (¬ 75 ≤ ar.scores.technical_score → ¬ 70 ≤ ar.scores.structure_score →
      ¬ 75 ≤ ar.scores.confidence_score → ar.analysis.content_analysis.has_examples = false →
      ¬ 80 ≤ ar.scores.completeness_score →
      identifyStrengths pickS ar =
        [if 50 ≤ ar.scores.overall_score then "Good effort in addressing the question"
         else "Thank you for providing a response"]) ∧
    (generateSuggestions pickG ar).length ≤ 4 := by
  refine ⟨rfl, ?_, ?_, ?_, ?_, ?_⟩
  · exact List.length_take_le _ _
  · exact List.length_take_le _ _
  · simp only [identifyStrengths]
    exact take3_ne_nil _ (ensure_nonempty _ _)
  · intro k1 k2 k3 k4 k5
    simp only [identifyStrengths, if_neg k1, if_neg k2, if_neg k3, k4, if_neg k5]
    simp
  · exact List.length_take_le _ _

/-- Witness for C9 (amended) at a concrete analysis and head-picking
choice. -/
theorem c9_feedback_caps_witness :
    (identifyImprovements (fun _ l => l.headI) c9Analysis).length ≤ 3 ∧
    identifyStrengths (fun _ l => l.headI) c9Analysis ≠ [] ∧
    (generateSuggestions (fun _ l => l.headI) c9Analysis).length ≤ 4 :=
  ⟨(c9_feedback_caps_amended (fun _ l => l.headI) (fun _ l => l.headI) (fun _ l => l.headI)
      c9Analysis).2.1,
   (c9_feedback_caps_amended (fun _ l => l.headI) (fun _ l => l.headI) (fun _ l => l.headI)
      c9Analysis).2.2.2.1,
   (c9_feedback_caps_amended (fun _ l => l.headI) (fun _ l => l.headI) (fun _ l => l.headI)
      c9Analysis).2.2.2.2.2⟩

/-! ### Claim C10 -/

/-- C10: an answer containing the word "maybe" has it counted both as a
low-confidence keyword and as a hedge phrase, so the pre-clamp confidence
expression is 15 points (10 + 5) below what the remaining keywords alone
would give — not 10 or 5 alone. -/
theorem c10_maybe_counted_twice (answer : Str)
    (h : containsSub "maybe".data (lowerStr answer) = true) :
    countPresent confidenceLow (lowerStr answer) =
      1 + countPresent confidenceLowRest (lowerStr answer) ∧
    countPresent hedgeWords (lowerStr answer) =
      1 + countPresent hedgeWordsRest (lowerStr answer) ∧
    confidenceRaw answer =
      ((countPresent confidenceHigh (lowerStr answer) : ℚ) * 15 -
        (countPresent confidenceLowRest (lowerStr answer) : ℚ) * 10 -
        (countPresent hedgeWordsRest (lowerStr answer) : ℚ) * 5 + 50) - 15 := by
  have hlowsplit : confidenceLow = "maybe".data :: confidenceLowRest := rfl
  have hhedgesplit : hedgeWords = hedgeWordsRest ++ ["maybe".data] := rfl
  have hlow : countPresent confidenceLow (lowerStr answer) =
      1 + countPresent confidenceLowRest (lowerStr answer) := by
    rw [hlowsplit, countPresent_cons, h, if_pos rfl]
  have hhedge : countPresent hedgeWords (lowerStr answer) =
      countPresent hedgeWordsRest (lowerStr answer) + 1 := by
    rw [hhedgesplit, countPresent_append, countPresent_cons, h, if_pos rfl]
    simp [countPresent]
  refine ⟨hlow, by rw [hhedge]; ring, ?_⟩
  simp only [confidenceRaw]
  rw [hlow, hhedge]
  push_cast
  ring

/-- Witness for C10 at the answer "Maybe this works fine.". -/
theorem c10_maybe_counted_twice_witness :
    containsSub "maybe".data (lowerStr "Maybe this works fine.".data) = true ∧
    confidenceRaw "Maybe this works fine.".data =
      ((countPresent confidenceHigh (lowerStr "Maybe this works fine.".data) : ℚ) * 15 -
        (countPresent confidenceLowRest (lowerStr "Maybe this works fine.".data) : ℚ) * 10 -
        (countPresent hedgeWordsRest (lowerStr "Maybe this works fine.".data) : ℚ) * 5 + 50)
        - 15 := by
  have h : containsSub "maybe".data (lowerStr "Maybe this works fine.".data) = true := by decide
  exact ⟨h, (c10_maybe_counted_twice _ h).2.2⟩

end AIInterviewBot
